import Mathlib

/-!
Verification of the analytics core of the sales-forecasting engine.

The Python sources are embedded shallowly:
* floating-point numbers are modelled as rationals (`ℚ`); the single
  square root taken by the code (`pandas` population standard deviation)
  is modelled with `Real.sqrt`, so volatility lands in `ℝ`;
* the float value `inf` returned by `volatility_percent` when the window
  mean is zero is modelled by `none` in an `Option ℝ` codomain
  (`some x` is an ordinary finite value);
* a series carries no missing values in the model (the pipeline's
  `prepare_series` never produces NaN), so pandas `dropna` is the
  identity;
* the opaque `statsmodels` model fit inside `ets_recursive_forecast` is
  treated as an oracle: its outputs (raw forecasts, residual standard
  deviation) are explicit parameters of the embedded function, and all
  theorems quantify over them.
-/

/- ================= risk_analysis.py ================= -/

/-- Mean of a list of rationals (`Series.mean`); `0` on the empty list
(Lean's `x / 0 = 0` convention). -/
def meanL (l : List ℚ) : ℚ := l.sum / (l.length : ℚ)

/-- Slice `s.iloc[-w:]` — the last `w` entries.  Python's `-0` is `0`, so a zero
window selects the whole series. -/
def lastN (w : ℕ) (s : List ℚ) : List ℚ :=
  if w = 0 then s else s.drop (s.length - w)

/-- Population variance (`std(ddof=0)` squared): mean of squared
deviations from the mean. -/
def varPop (l : List ℚ) : ℚ := meanL (l.map (fun x => (x - meanL l) ^ 2))

/-- Population standard deviation (`std(ddof=0)`). -/
noncomputable def stdPop (l : List ℚ) : ℝ := Real.sqrt ((varPop l : ℚ) : ℝ)

/-- Function `volatility_percent(series, window=12)` from `risk_analysis.py`:
coefficient of variation over the last `window` points, in percent.
`none` models the Python return value `float('inf')` (window mean 0);
an empty series yields `some 0`. -/
noncomputable def volatility_percent (series : List ℚ) (window : ℕ := 12) : Option ℝ :=
  if series = [] then some 0
  else
    let recent := lastN window series
    if meanL recent = 0 then none
    else some (stdPop recent / ((meanL recent : ℚ) : ℝ) * 100)

/-- Function `peak_to_current_drawdown(series)` from `risk_analysis.py`: percent
fall of the last value from the running maximum; `0` on the empty series
or when the peak is `0`. -/
def peak_to_current_drawdown : List ℚ → ℚ
  | [] => 0
  | x :: xs =>
      let peak := xs.foldl max x
      let current := (x :: xs).getLast (List.cons_ne_nil x xs)
      if peak = 0 then 0 else (peak - current) / peak * 100

/-- Function `momentum_score(series, months=3)` from `risk_analysis.py`:
ordinary-least-squares slope over the last `min(months, len-1)+1` points
(closed form of `np.linalg.lstsq` for simple linear regression),
divided by their mean, in percent per month; `0` with fewer than two
points or when the mean is `0`. -/
def momentum_score (series : List ℚ) (months : ℕ := 3) : ℚ :=
  if series.length < 2 then 0
  else
    let window := min months (series.length - 1)
    let recent := lastN (window + 1) series
    let k : ℚ := (recent.length : ℚ)
    let xs : List ℚ := (List.range recent.length).map (fun i => (i : ℚ))
    let sx := xs.sum
    let sxx := (xs.map (fun x => x ^ 2)).sum
    let sy := recent.sum
    let sxy := (List.zipWith (· * ·) xs recent).sum
    let slope := (k * sxy - sx * sy) / (k * sxx - sx ^ 2)
    if meanL recent = 0 then 0 else slope / meanL recent * 100

/-- Python `min(v, c)` where `v` may be `float('inf')` (`none`): the cap
`c` wins against infinity. -/
def optMin (v : Option ℝ) (c : ℝ) : ℝ :=
  match v with
  | none => c
  | some x => min x c

/-- Function `composite_risk_score(series)` from `risk_analysis.py`: weighted
blend of capped volatility, capped negative 6-month momentum and capped
drawdown, clamped to `[0, 100]`. -/
noncomputable def composite_risk_score (series : List ℚ) : ℝ :=
  let vol := volatility_percent series
  let draw := peak_to_current_drawdown series
  let mom := momentum_score series 6
  let trend_pct : ℚ := -(min mom 0)
  let vol_norm : ℝ := optMin vol 100
  let draw_norm : ℝ := min ((draw : ℚ) : ℝ) 100
  let trend_norm : ℝ := min ((|trend_pct| : ℚ) : ℝ) 100
  let score : ℝ := 0.4 * vol_norm + 0.3 * trend_norm + 0.3 * draw_norm
  max 0 (min 100 score)

/-- The composite-score formula exactly as the specification words it:
`0.4*min(volatility,100) + 0.3*min(|negativeMomentum6mo|,100) +
0.3*min(drawdown,100)`, clamped to `[0,100]`, where the negative
momentum is `min(momentum6mo, 0)`.  Stated separately from
`composite_risk_score` so that the two can be compared. -/
noncomputable def compositeScoreSpec (series : List ℚ) : ℝ :=
  let negMom : ℚ := min (momentum_score series 6) 0
  max 0 (min 100
    (0.4 * optMin (volatility_percent series) 100
      + 0.3 * min ((|negMom| : ℚ) : ℝ) 100
      + 0.3 * min ((peak_to_current_drawdown series : ℚ) : ℝ) 100))

/-- Function `classify_score(score)` from `risk_analysis.py`. -/
def classify_score (score : ℚ) : String :=
  if score < 30 then "Low" else if score < 60 then "Medium" else "High"

/-- Severity rank of a risk label, for the monotonicity statement. -/
def severity (label : String) : ℕ :=
  if label = "Low" then 0 else if label = "Medium" then 1 else 2

/- ================= forecasting.py ================= -/

/-- The per-step growth allowance of the anti-rebound safety adjustment:
`allowed = max(abs(recent_pct) * max_growth_multiplier, floor)` with the
default multiplier `3.0` and `floor = 0.01`. -/
def antiAllowed (recentPct : ℚ) : ℚ := max (|recentPct| * 3) (1 / 100)

/-- One step of the anti-rebound loop in `ets_recursive_forecast`
(lines 83-97 of `forecasting.py`, multiplier at its default `3.0`):
cap the raw forecast `p` relative to the previous adjusted value
`prev`; when the recent trend is negative and `p` rebounds above
`prev`, only the upper cap applies. -/
def adjustStep (recentPct prev p : ℚ) : ℚ :=
  let allowed := antiAllowed recentPct
  let maxUp := prev * (1 + allowed)
  let minDown := prev * (1 - allowed * 3)
  if recentPct < 0 ∧ prev < p then min p maxUp
  else max (min p maxUp) minDown

/-- The sequence of adjusted forecasts: `prev` starts at the last actual
observation and is updated to each adjusted value. -/
def adjustedPreds (recentPct : ℚ) : ℚ → List ℚ → List ℚ
  | _, [] => []
  | prev, p :: ps => adjustStep recentPct prev p :: adjustedPreds recentPct (adjustStep recentPct prev p) ps

/-- The value of `prev` seen by each step of the anti-rebound loop. -/
def prevSeq (recentPct : ℚ) : ℚ → List ℚ → List ℚ
  | _, [] => []
  | prev, p :: ps => prev :: prevSeq recentPct (adjustStep recentPct prev p) ps

/-- Value `recent_pct` of `ets_recursive_forecast` for a series of length ≥ 3:
mean of the two percent changes over the last three observations.
`pandas` produces non-finite values when a denominator is `0`; the model
uses Lean's `x / 0 = 0` convention there, and the anti-rebound theorems
below are proved for an arbitrary `recentPct`, covering every value. -/
def recentPctOf (s : List ℚ) : ℚ :=
  match lastN 3 s with
  | [x0, x1, x2] => ((x1 - x0) / x0 + (x2 - x1) / x1) / 2
  | _ => 0

/-- Result record of `ets_recursive_forecast` (the `fitted` entry, used
nowhere downstream in the claims, is omitted). -/
structure ForecastResult where
  predictions : List ℚ
  lower : List ℚ
  upper : List ℚ
deriving DecidableEq

/-- Function `ets_recursive_forecast(series, steps)` from `forecasting.py`.  The
opaque `statsmodels` fit is an oracle: `rawPreds` stands for
`fitted.forecast(steps)` and `residStd` for the in-sample residual
standard deviation; every theorem quantifies over both.  The empty
series raises `ValueError` (modelled as `Except.error`); fewer than
three points short-circuit to the flat repeat of the last value; the
main branch applies the ±1.96·residStd band and the anti-rebound
adjustment (multiplier at its default `3.0`). -/
def ets_recursive_forecast (series : List ℚ) (steps : ℕ)
    (rawPreds : List ℚ) (residStd : ℚ) : Except String ForecastResult :=
  if series = [] then .error "Empty series provided"
  else if series.length < 3 then
    let last := series.getLastD 0
    .ok ⟨List.replicate steps last, List.replicate steps last, List.replicate steps last⟩
  else
    let lower := rawPreds.map (fun p => p - (1.96 : ℚ) * residStd)
    let upper := rawPreds.map (fun p => p + (1.96 : ℚ) * residStd)
    let recentPct := recentPctOf series
    let prev0 := series.getLastD 0
    let prevs := prevSeq recentPct prev0 rawPreds
    let allowed := antiAllowed recentPct
    .ok ⟨adjustedPreds recentPct prev0 rawPreds,
         List.zipWith (fun prev l => max (prev * (1 - allowed * 3)) l) prevs lower,
         List.zipWith (fun prev u => min (prev * (1 + allowed)) u) prevs upper⟩

/- ================= consistency_validator.py ================= -/

/-- The fields of the payload that `validate_and_adjust` reads.  The
upstream pipeline (`prediction.py`) never sets `consistency_explanation`
before the validator runs, so the input record has no such field. -/
structure ValidatorIn where
  risk_label : Option String
  volatility_percent : Option ℚ
  predictions : List ℚ
  last_actual : Option ℚ
deriving DecidableEq

/-- Output payload: the input fields plus the two fields the validator
may add; `none` models an absent key. -/
structure ValidatorOut extends ValidatorIn where
  forecast_direction_pct : Option ℚ
  consistency_explanation : Option String
deriving DecidableEq

/-- The recomputed forecast direction percent: `(avg(preds) - last) /
last`, guarded to `0.0` when `last == 0`; `none` when the predictions
list is empty or `last_actual` is missing (the key is then never set). -/
def directionPct (p : ValidatorIn) : Option ℚ :=
  match p.predictions, p.last_actual with
  | [], _ => none
  | _, none => none
  | preds, some last =>
      let avg := preds.sum / (preds.length : ℚ)
      some (if last = 0 then 0 else (avg - last) / last)

/-- The direction string derived from `directionPct`. -/
def directionOf (p : ValidatorIn) : Option String :=
  (directionPct p).map (fun pct => if 0 < pct then "up" else if pct < 0 then "down" else "flat")

/-- Condition `volatility is not None and volatility > 40` from line 31. -/
def volAbove40 (v : Option ℚ) : Bool :=
  match v with
  | none => false
  | some x => decide (40 < x)

/-- Contradiction rule (a): forecast up while risk is High. -/
def ruleA (p : ValidatorIn) : Bool :=
  decide (directionOf p = some "up") && decide (p.risk_label = some "High")

/-- Contradiction rule (b): volatility above 40 while forecast is up. -/
def ruleB (p : ValidatorIn) : Bool :=
  volAbove40 p.volatility_percent && decide (directionOf p = some "up")

def instabilitySentence : String :=
  "Forecast projects growth but composite risk is High — investigate instability in revenue drivers."

def volatilityWarningSentence : String :=
  "High volatility (>40%) reduces confidence in upward forecast; results may be sensitive to recent noise."

/-- Function `validate_and_adjust(payload)` from `consistency_validator.py`:
recompute the direction, evaluate both contradiction rules, and attach
the space-joined explanation only when at least one rule fired. -/
def validate_and_adjust (p : ValidatorIn) : ValidatorOut :=
  let sentences :=
    (if ruleA p then [instabilitySentence] else [])
      ++ (if ruleB p then [volatilityWarningSentence] else [])
  { toValidatorIn := p
    forecast_direction_pct := directionPct p
    consistency_explanation :=
      if sentences.isEmpty then none else some (String.intercalate " " sentences) }

/- ================= insights_engine.py ================= -/

/-- The six recommendation playbooks of `build_insight`
(lines 76-124 of `insights_engine.py`). -/
inductive Playbook where
  | crisis
  | cautiousMonitoring
  | volatileGrowth
  | moderate
  | controlledDecline
  | growthInvestment
deriving DecidableEq

/-- Python truthiness guard `recent_short and recent_short < c`:
falsy (`None` or `0.0`) short-circuits to false. -/
def truthyLt (rs : Option ℚ) (c : ℚ) : Bool :=
  match rs with
  | none => false
  | some v => decide (v ≠ 0) && decide (v < c)

/-- Python truthiness guard `recent_short and recent_short > c`. -/
def truthyGt (rs : Option ℚ) (c : ℚ) : Bool :=
  match rs with
  | none => false
  | some v => decide (v ≠ 0) && decide (c < v)

/-- The recommendation selector of `build_insight`: the branch structure
of lines 76-124 keyed by `risk_label` and `recent_short_pct` (a
fraction: `-0.10` is −10%). -/
def recommendationOf (risk : Option String) (recentShort : Option ℚ) : Playbook :=
  if risk = some "High" then .crisis
  else if risk = some "Medium" then
    if truthyLt recentShort (-(10 / 100)) then .cautiousMonitoring
    else if truthyGt recentShort (10 / 100) then .volatileGrowth
    else .moderate
  else if risk = some "Low" ∧ truthyLt recentShort (-(10 / 100)) then .controlledDecline
  else .growthInvestment

/-- The three phrasings of the trend-summary section. -/
inductive TrendPhrase where
  | decline
  | growth
  | modest
deriving DecidableEq

/-- The trend-summary branch of `build_insight` (lines 45-50): plain
comparisons against `-0.15` and `0.10`, no truthiness guard. -/
def trendSummaryOf (recentShort : ℚ) : TrendPhrase :=
  if recentShort < -(15 / 100) then .decline
  else if 10 / 100 < recentShort then .growth
  else .modest

/- ================= preprocessing.py ================= -/

/-- A parsed timestamp, reduced to the data `prepare_series` inspects:
its calendar-month key and its day within that month. -/
structure RawDate where
  month : ℤ
  day : ℕ
deriving DecidableEq

/-- Function `prepare_series(df)` from `preprocessing.py`: bucket rows by
calendar month, map each bucket to its month-end date, sum the values
per bucket and sort by month ascending.  The pandas month-end rule
`dt.to_period('M').dt.to_timestamp('M')` (which day a month ends on) is
calendar plumbing external to the repository, so it is abstracted as a
parameter `med : ℤ → ℕ`; every theorem quantifies over it. -/
def prepare_series (med : ℤ → ℕ) (rows : List (RawDate × ℚ)) : List (RawDate × ℚ) :=
  let months : List ℤ := (rows.map (fun r => r.1.month)).toFinset.sort (· ≤ ·)
  months.map (fun m =>
    (⟨m, med m⟩, ((rows.filter (fun r => r.1.month = m)).map (fun r => r.2)).sum))

/- ================= helper lemmas ================= -/

lemma meanL_replicate (k : ℕ) (c : ℚ) (hk : k ≠ 0) : meanL (List.replicate k c) = c := by
  unfold meanL
  rw [List.sum_replicate, List.length_replicate, nsmul_eq_mul,
    mul_comm, mul_div_assoc, div_self (by exact_mod_cast hk), mul_one]

lemma varPop_replicate (k : ℕ) (c : ℚ) (hk : k ≠ 0) : varPop (List.replicate k c) = 0 := by
  unfold varPop
  rw [meanL_replicate k c hk, List.map_replicate]
  simp [meanL, List.sum_replicate]

lemma lastN_replicate (w n : ℕ) (c : ℚ) (hn : n ≠ 0) :
    ∃ k, k ≠ 0 ∧ lastN w (List.replicate n c) = List.replicate k c := by
  have hmem : ∀ x ∈ lastN w (List.replicate n c), x = c := by
    intro x hx
    unfold lastN at hx
    split at hx
    · exact List.eq_of_mem_replicate hx
    · exact List.eq_of_mem_replicate (List.drop_subset _ _ hx)
  refine ⟨(lastN w (List.replicate n c)).length, ?_, List.eq_replicate_of_mem hmem⟩
  unfold lastN
  split
  · simpa using hn
  · rw [List.length_drop, List.length_replicate]
    omega

lemma volatility_replicate (n w : ℕ) (c : ℚ) (hn : n ≠ 0) (hc : c ≠ 0) :
    volatility_percent (List.replicate n c) w = some 0 := by
  obtain ⟨k, hk, hrep⟩ := lastN_replicate w n c hn
  have hne : List.replicate n c ≠ [] := by simp [hn]
  simp only [volatility_percent, if_neg hne, hrep, meanL_replicate k c hk, if_neg hc]
  simp [stdPop, varPop_replicate k c hk]

lemma foldl_max_sorted (x : ℚ) (xs : List ℚ)
    (h : List.Sorted (· ≤ ·) (x :: xs)) :
    xs.foldl max x = (x :: xs).getLast (List.cons_ne_nil x xs) := by
  induction xs generalizing x with
  | nil => rfl
  | cons y ys ih =>
      obtain ⟨hhead, htail⟩ := List.sorted_cons.mp h
      have hxy : x ≤ y := hhead y (by simp)
      rw [List.foldl_cons, max_eq_right hxy, ih y htail,
        List.getLast_cons (List.cons_ne_nil y ys)]

/- ================= claim theorems ================= -/

/-- C5: `classify_score` returns Low exactly below 30, Medium exactly on
[30, 60), High exactly from 60 up (lower band bounds inclusive), it is
monotonic non-decreasing in severity, and the boundary scores 29.999,
30.0, 59.999 and 60.0 classify as Low, Medium, Medium and High. -/
theorem classify_score_bands (s t : ℚ) (hst : s ≤ t) :
    (classify_score s = "Low" ↔ s < 30) ∧
    (classify_score s = "Medium" ↔ 30 ≤ s ∧ s < 60) ∧
    (classify_score s = "High" ↔ 60 ≤ s) ∧
    severity (classify_score s) ≤ severity (classify_score t) ∧
    classify_score (29999 / 1000) = "Low" ∧ classify_score 30 = "Medium" ∧
    classify_score (59999 / 1000) = "Medium" ∧ classify_score 60 = "High" := by
  refine ⟨?_, ?_, ?_, ?_, ?_, ?_, ?_, ?_⟩
  · unfold classify_score
    split_ifs with h1 h2 <;> simp_all
  · unfold classify_score
    split_ifs with h1 h2 <;> simp_all
  · unfold classify_score
    split_ifs with h1 h2 <;> simp_all
    linarith
  · unfold classify_score
    by_cases hs1 : s < 30
    · rw [if_pos hs1]
      simp [severity]
    · rw [if_neg hs1]
      have ht1 : ¬t < 30 := by rw [not_lt] at hs1 ⊢; linarith
      rw [if_neg ht1]
      by_cases hs2 : s < 60
      · rw [if_pos hs2]
        by_cases ht2 : t < 60
        · rw [if_pos ht2]
        · rw [if_neg ht2]
          simp [severity]
      · rw [if_neg hs2]
        have ht2 : ¬t < 60 := by rw [not_lt] at hs2 ⊢; linarith
        rw [if_neg ht2]
  · norm_num [classify_score]
  · norm_num [classify_score]
  · norm_num [classify_score]
  · norm_num [classify_score]

/-- C5 witness at `s = 0`, `t = 100`. -/
theorem classify_score_bands_witness :
    (classify_score 0 = "Low" ↔ (0 : ℚ) < 30) ∧
    (classify_score 0 = "Medium" ↔ (30 : ℚ) ≤ 0 ∧ (0 : ℚ) < 60) ∧
    (classify_score 0 = "High" ↔ (60 : ℚ) ≤ 0) ∧
    severity (classify_score 0) ≤ severity (classify_score 100) ∧
    classify_score (29999 / 1000) = "Low" ∧ classify_score 30 = "Medium" ∧
    classify_score (59999 / 1000) = "Medium" ∧ classify_score 60 = "High" :=
  classify_score_bands 0 100 (by norm_num)

/-- C8 counterexample: the constant all-zero series `[0, 0, 0]` has
window mean `0`, so `volatility_percent` returns the `+inf` sentinel
(`none`), not `0.0` as the claim states for every constant series. -/
theorem volatility_const_counterexample :
    volatility_percent [0, 0, 0] 12 = none ∧
    volatility_percent [0, 0, 0] 12 ≠ some 0 := by
  have h : volatility_percent [0, 0, 0] 12 = none := by
    have hne : ([0, 0, 0] : List ℚ) ≠ [] := by simp
    simp only [volatility_percent, if_neg hne]
    norm_num [lastN, meanL]
  exact ⟨h, by rw [h]; simp⟩

/-- C8 amended: every non-empty constant series with a *nonzero* value
has volatility exactly `0` (the all-zero constant series instead hits
the mean-zero branch and returns the `+inf` sentinel), and the drawdown
of every monotonically non-decreasing series is exactly `0`. -/
theorem volatility_const_drawdown_mono (c : ℚ) (n w : ℕ) (s : List ℚ)
    (hc : c ≠ 0) (hn : n ≠ 0) (hs : List.Sorted (· ≤ ·) s) :
    volatility_percent (List.replicate n c) w = some 0 ∧
    peak_to_current_drawdown s = 0 := by
  refine ⟨volatility_replicate n w c hn hc, ?_⟩
  cases s with
  | nil => rfl
  | cons x xs =>
      simp only [peak_to_current_drawdown]
      rw [foldl_max_sorted x xs hs]
      split_ifs with h
      · rfl
      · simp

/-- C8 witness at the constant series `[5, 5, 5]` (as
`List.replicate 3 5`) and the non-decreasing series `[1, 2, 2, 3]`. -/
theorem volatility_const_drawdown_mono_witness :
    volatility_percent (List.replicate 3 5) 12 = some 0 ∧
    peak_to_current_drawdown [1, 2, 2, 3] = 0 :=
  volatility_const_drawdown_mono 5 3 12 [1, 2, 2, 3] (by norm_num) (by norm_num)
    (by norm_num [List.sorted_cons])

/-- C7: the division-by-zero sentinels.  `volatility_percent` returns
`0` on the empty series and the `+inf` sentinel (`none`) when the
window mean is exactly `0`; `momentum_score` returns `0` with fewer
than two points and `0` when the regression window's mean is `0`.  The
embedded functions are total, so no exception or NaN is produced. -/
theorem division_sentinels (s : List ℚ) (w m : ℕ) :
    volatility_percent ([] : List ℚ) w = some 0 ∧
    (s ≠ [] → meanL (lastN w s) = 0 → volatility_percent s w = none) ∧
    (s.length < 2 → momentum_score s m = 0) ∧
    (2 ≤ s.length → meanL (lastN (min m (s.length - 1) + 1) s) = 0 →
      momentum_score s m = 0) := by
  refine ⟨?_, ?_, ?_, ?_⟩
  · simp [volatility_percent]
  · intro h1 h2
    simp only [volatility_percent, if_neg h1]
    simp [h2]
  · intro h
    unfold momentum_score
    rw [if_pos h]
  · intro h1 h2
    unfold momentum_score
    rw [if_neg (by omega)]
    simp [h2]

/-- C7 witness: the empty series, the zero-mean window `[3, -3]`, the
single-point series `[9]`, and the zero-mean regression window
`[2, -2]`. -/
theorem division_sentinels_witness :
    volatility_percent ([] : List ℚ) 12 = some 0 ∧
    volatility_percent [3, -3] 12 = none ∧
    momentum_score [9] 3 = 0 ∧
    momentum_score [2, -2] 3 = 0 :=
  ⟨(division_sentinels [] 12 3).1,
   (division_sentinels [3, -3] 12 3).2.1 (by simp) (by norm_num [meanL, lastN]),
   (division_sentinels [9] 12 3).2.2.1 (by norm_num),
   (division_sentinels [2, -2] 3 3).2.2.2 (by norm_num) (by norm_num [meanL, lastN])⟩

/-- C2: for every non-empty series the composite risk score equals the
specification formula `clamp(0.4*min(vol,100) + 0.3*min(|negMom6|,100)
+ 0.3*min(draw,100), 0, 100)`; non-negative 6-month momentum makes the
trend term exactly `0`; and the score lies in `[0, 100]` for every
input. -/
theorem composite_risk_score_spec_eq (s : List ℚ) :
    (s ≠ [] → composite_risk_score s = compositeScoreSpec s) ∧
    (0 ≤ momentum_score s 6 →
      composite_risk_score s =
        max 0 (min 100
          (0.4 * optMin (volatility_percent s) 100 + 0.3 * 0
            + 0.3 * min ((peak_to_current_drawdown s : ℚ) : ℝ) 100))) ∧
    0 ≤ composite_risk_score s ∧ composite_risk_score s ≤ 100 := by
  refine ⟨?_, ?_, ?_, ?_⟩
  · intro _
    simp only [composite_risk_score, compositeScoreSpec, abs_neg]
  · intro h
    simp only [composite_risk_score, min_eq_right h, neg_zero, abs_zero, Rat.cast_zero]
    norm_num
  · exact le_max_left 0 _
  · exact max_le (by norm_num) (min_le_left _ _)

/-- C2 witness at the non-empty series `[5, 5, 5]` (whose 6-month
momentum is `0 ≥ 0`). -/
theorem composite_risk_score_spec_eq_witness :
    composite_risk_score [5, 5, 5] = compositeScoreSpec [5, 5, 5] ∧
    composite_risk_score [5, 5, 5] =
      max 0 (min 100
        (0.4 * optMin (volatility_percent [5, 5, 5]) 100 + 0.3 * 0
          + 0.3 * min ((peak_to_current_drawdown [5, 5, 5] : ℚ) : ℝ) 100)) ∧
    0 ≤ composite_risk_score [5, 5, 5] ∧ composite_risk_score [5, 5, 5] ≤ 100 :=
  ⟨(composite_risk_score_spec_eq [5, 5, 5]).1 (by simp),
   (composite_risk_score_spec_eq [5, 5, 5]).2.1
     (by norm_num [momentum_score, lastN, meanL, List.range_succ]),
   (composite_risk_score_spec_eq [5, 5, 5]).2.2.1,
   (composite_risk_score_spec_eq [5, 5, 5]).2.2.2⟩

/- ========== forecasting: degenerate branch and anti-rebound ========== -/

lemma getLastD_eq_getLast (s : List ℚ) (h : s ≠ []) : s.getLastD 0 = s.getLast h := by
  rw [List.getLastD_eq_getLast?, List.getLast?_eq_getLast_of_ne_nil h, Option.getD_some]

/-- C4: with fewer than three points (and a non-empty series), every
prediction, lower and upper bound equals the last observed value, for
every horizon `steps ≥ 1` and regardless of the model-fit oracle
(`raw`, `rs`) — no fit is consulted. -/
theorem ets_degenerate (s : List ℚ) (steps : ℕ) (raw : List ℚ) (rs : ℚ)
    (hne : s ≠ []) (hlen : s.length < 3) (_hsteps : 1 ≤ steps) :
    ets_recursive_forecast s steps raw rs =
      .ok ⟨List.replicate steps (s.getLast hne), List.replicate steps (s.getLast hne),
           List.replicate steps (s.getLast hne)⟩ := by
  unfold ets_recursive_forecast
  rw [if_neg hne, if_pos hlen, getLastD_eq_getLast s hne]

/-- C4 witness: the two-point series `[7, 8]` with horizon `2` and an
arbitrary oracle. -/
theorem ets_degenerate_witness :
    ets_recursive_forecast [7, 8] 2 [1, 2] 5 = .ok ⟨[8, 8], [8, 8], [8, 8]⟩ := by
  rw [ets_degenerate [7, 8] 2 [1, 2] 5 (by simp) (by norm_num) (by norm_num)]
  norm_num [List.replicate, List.getLast]

lemma prevSeq_getD_zero (rp p0 : ℚ) (preds : List ℚ) (h : preds ≠ []) :
    (prevSeq rp p0 preds).getD 0 0 = p0 := by
  cases preds with
  | nil => exact absurd rfl h
  | cons p ps => rfl

lemma adjustedPreds_getD (rp p0 : ℚ) (preds : List ℚ) (i : ℕ) (hi : i < preds.length) :
    (adjustedPreds rp p0 preds).getD i 0 =
      adjustStep rp ((prevSeq rp p0 preds).getD i 0) (preds.getD i 0) := by
  induction preds generalizing p0 i with
  | nil => simp at hi
  | cons p ps ih =>
      cases i with
      | zero => rfl
      | succ j =>
          have hj : j < ps.length := by simpa using hi
          simpa [adjustedPreds, prevSeq] using ih (adjustStep rp p0 p) j hj

lemma prevSeq_getD_succ (rp p0 : ℚ) (preds : List ℚ) (i : ℕ) (hi : i + 1 < preds.length) :
    (prevSeq rp p0 preds).getD (i + 1) 0 = (adjustedPreds rp p0 preds).getD i 0 := by
  induction preds generalizing p0 i with
  | nil => simp at hi
  | cons p ps ih =>
      cases i with
      | zero =>
          have hps : ps ≠ [] := by
            intro h
            rw [h] at hi
            simp at hi
          show (p0 :: prevSeq rp (adjustStep rp p0 p) ps).getD (0 + 1) 0 =
            (adjustedPreds rp p0 (p :: ps)).getD 0 0
          rw [List.getD_cons_succ, prevSeq_getD_zero rp _ ps hps]
          rfl
      | succ j =>
          have hj : j + 1 < ps.length := by simpa using hi
          simpa [prevSeq, adjustedPreds] using ih (adjustStep rp p0 p) j hj

lemma antiAllowed_nonneg (rp : ℚ) : 0 ≤ antiAllowed rp :=
  le_trans (by norm_num) (le_max_right (|rp| * 3) (1 / 100))

lemma adjustStep_rebound_upper (rp prev p : ℚ) (h : rp < 0 ∧ prev < p) :
    adjustStep rp prev p ≤ prev * (1 + antiAllowed rp) := by
  unfold adjustStep
  rw [if_pos h]
  exact min_le_right _ _

lemma adjustStep_clamped (rp prev p : ℚ) (hprev : 0 ≤ prev) (h : ¬(rp < 0 ∧ prev < p)) :
    prev * (1 - antiAllowed rp * 3) ≤ adjustStep rp prev p ∧
      adjustStep rp prev p ≤ prev * (1 + antiAllowed rp) := by
  unfold adjustStep
  rw [if_neg h]
  refine ⟨le_max_right _ _, max_le (le_trans (min_le_right _ _) (le_refl _)) ?_⟩
  have ha := antiAllowed_nonneg rp
  exact mul_le_mul_of_nonneg_left (by linarith) hprev

/-- C1 amended: for a series of length ≥ 3 the predictions are the
sequential anti-rebound adjustments of the raw forecasts (`prev`
initialized to the last actual and updated to each adjusted value), and
at every step `i` *whose previous adjusted value `prev_i` is
non-negative* the caps hold: in the rebound exception
(`recentPct < 0` and raw forecast above `prev_i`) only
`adjusted_i ≤ prev_i * (1 + allowed)`, otherwise
`prev_i * (1 - allowed * 3) ≤ adjusted_i ≤ prev_i * (1 + allowed)`.
The non-negativity proviso is forced: with a negative `prev` the two
caps invert and the clamp violates the upper cap (see the
counterexample). -/
theorem ets_antiRebound_caps (s : List ℚ) (steps : ℕ) (raw : List ℚ) (rs : ℚ) (i : ℕ)
    (h3 : 3 ≤ s.length) (hi : i < raw.length)
    (hprev : 0 ≤ (prevSeq (recentPctOf s) (s.getLastD 0) raw).getD i 0) :
    (∃ r, ets_recursive_forecast s steps raw rs = .ok r ∧
       r.predictions = adjustedPreds (recentPctOf s) (s.getLastD 0) raw) ∧
    (prevSeq (recentPctOf s) (s.getLastD 0) raw).getD 0 0 = s.getLastD 0 ∧
    (i + 1 < raw.length →
      (prevSeq (recentPctOf s) (s.getLastD 0) raw).getD (i + 1) 0 =
        (adjustedPreds (recentPctOf s) (s.getLastD 0) raw).getD i 0) ∧
    (adjustedPreds (recentPctOf s) (s.getLastD 0) raw).getD i 0 =
      adjustStep (recentPctOf s) ((prevSeq (recentPctOf s) (s.getLastD 0) raw).getD i 0)
        (raw.getD i 0) ∧
    (recentPctOf s < 0 ∧
        (prevSeq (recentPctOf s) (s.getLastD 0) raw).getD i 0 < raw.getD i 0 →
      (adjustedPreds (recentPctOf s) (s.getLastD 0) raw).getD i 0 ≤
        (prevSeq (recentPctOf s) (s.getLastD 0) raw).getD i 0
          * (1 + antiAllowed (recentPctOf s))) ∧
    (¬(recentPctOf s < 0 ∧
        (prevSeq (recentPctOf s) (s.getLastD 0) raw).getD i 0 < raw.getD i 0) →
      (prevSeq (recentPctOf s) (s.getLastD 0) raw).getD i 0
          * (1 - antiAllowed (recentPctOf s) * 3) ≤
        (adjustedPreds (recentPctOf s) (s.getLastD 0) raw).getD i 0 ∧
      (adjustedPreds (recentPctOf s) (s.getLastD 0) raw).getD i 0 ≤
        (prevSeq (recentPctOf s) (s.getLastD 0) raw).getD i 0
          * (1 + antiAllowed (recentPctOf s))) := by
  have hsne : s ≠ [] := by
    intro h
    rw [h] at h3
    simp at h3
  have hrawne : raw ≠ [] := by
    intro h
    rw [h] at hi
    simp at hi
  refine ⟨?_, prevSeq_getD_zero _ _ _ hrawne, fun h => prevSeq_getD_succ _ _ _ _ h,
    adjustedPreds_getD _ _ _ _ hi, ?_, ?_⟩
  · unfold ets_recursive_forecast
    rw [if_neg hsne, if_neg (by omega)]
    exact ⟨_, rfl, rfl⟩
  · intro hcase
    rw [adjustedPreds_getD _ _ _ _ hi]
    exact adjustStep_rebound_upper _ _ _ hcase
  · intro hcase
    rw [adjustedPreds_getD _ _ _ _ hi]
    exact adjustStep_clamped _ _ _ hprev hcase

/-- C1 witness: declining series `[100, 90, 80]`, horizon 2, raw
forecasts `[95, 60]` (a rebound then a fall), oracle residual `0`.  The
recent percent change is negative, `prev` stays non-negative at both
steps, and the caps hold as the amended claim states. -/
theorem ets_antiRebound_caps_witness :
    (∃ r, ets_recursive_forecast [100, 90, 80] 2 [95, 60] 0 = .ok r ∧
       r.predictions = adjustedPreds (recentPctOf [100, 90, 80])
         (([100, 90, 80] : List ℚ).getLastD 0) [95, 60]) ∧
    (prevSeq (recentPctOf [100, 90, 80]) (([100, 90, 80] : List ℚ).getLastD 0)
        [95, 60]).getD 0 0 = ([100, 90, 80] : List ℚ).getLastD 0 ∧
    ((0 : ℕ) + 1 < ([95, 60] : List ℚ).length →
      (prevSeq (recentPctOf [100, 90, 80]) (([100, 90, 80] : List ℚ).getLastD 0)
          [95, 60]).getD (0 + 1) 0 =
        (adjustedPreds (recentPctOf [100, 90, 80])
          (([100, 90, 80] : List ℚ).getLastD 0) [95, 60]).getD 0 0) ∧
    (adjustedPreds (recentPctOf [100, 90, 80]) (([100, 90, 80] : List ℚ).getLastD 0)
        [95, 60]).getD 0 0 =
      adjustStep (recentPctOf [100, 90, 80])
        ((prevSeq (recentPctOf [100, 90, 80]) (([100, 90, 80] : List ℚ).getLastD 0)
          [95, 60]).getD 0 0) (([95, 60] : List ℚ).getD 0 0) ∧
    (recentPctOf [100, 90, 80] < 0 ∧
        (prevSeq (recentPctOf [100, 90, 80]) (([100, 90, 80] : List ℚ).getLastD 0)
          [95, 60]).getD 0 0 < ([95, 60] : List ℚ).getD 0 0 →
      (adjustedPreds (recentPctOf [100, 90, 80]) (([100, 90, 80] : List ℚ).getLastD 0)
          [95, 60]).getD 0 0 ≤
        (prevSeq (recentPctOf [100, 90, 80]) (([100, 90, 80] : List ℚ).getLastD 0)
            [95, 60]).getD 0 0 * (1 + antiAllowed (recentPctOf [100, 90, 80]))) ∧
    (¬(recentPctOf [100, 90, 80] < 0 ∧
        (prevSeq (recentPctOf [100, 90, 80]) (([100, 90, 80] : List ℚ).getLastD 0)
          [95, 60]).getD 0 0 < ([95, 60] : List ℚ).getD 0 0) →
      (prevSeq (recentPctOf [100, 90, 80]) (([100, 90, 80] : List ℚ).getLastD 0)
            [95, 60]).getD 0 0 * (1 - antiAllowed (recentPctOf [100, 90, 80]) * 3) ≤
        (adjustedPreds (recentPctOf [100, 90, 80]) (([100, 90, 80] : List ℚ).getLastD 0)
          [95, 60]).getD 0 0 ∧
      (adjustedPreds (recentPctOf [100, 90, 80]) (([100, 90, 80] : List ℚ).getLastD 0)
          [95, 60]).getD 0 0 ≤
        (prevSeq (recentPctOf [100, 90, 80]) (([100, 90, 80] : List ℚ).getLastD 0)
            [95, 60]).getD 0 0 * (1 + antiAllowed (recentPctOf [100, 90, 80]))) :=
  ets_antiRebound_caps [100, 90, 80] 2 [95, 60] 0 0 (by norm_num) (by norm_num)
    (by norm_num [prevSeq, List.getLastD])

/-- C1 counterexample: for the constant series `[-100, -100, -100]`
(`recentPct = 0`, `allowed = 0.01`, last actual `-100`) and raw
forecast `0`, the rebound exception does not apply (`recentPct` is not
negative), yet the clamped first step is `-97`, which *violates* the
claimed upper cap `prev * (1 + allowed) = -101`: the caps invert when
`prev` is negative. -/
theorem ets_antiRebound_counterexample :
    ets_recursive_forecast [-100, -100, -100] 1 [0] 0 =
      .ok ⟨[-97], [0], [-101]⟩ ∧
    recentPctOf [-100, -100, -100] = 0 ∧
    ¬(recentPctOf [-100, -100, -100] < 0) ∧
    (adjustedPreds (recentPctOf [-100, -100, -100])
        (([-100, -100, -100] : List ℚ).getLastD 0) [0]).getD 0 0 = -97 ∧
    ¬((-97 : ℚ) ≤ (-100) * (1 + antiAllowed (recentPctOf [-100, -100, -100]))) := by
  have hne : ([-100, -100, -100] : List ℚ) ≠ [] := by simp
  have hrp : recentPctOf [-100, -100, -100] = 0 := by
    norm_num [recentPctOf, lastN]
  refine ⟨?_, hrp, by rw [hrp]; norm_num, ?_, ?_⟩
  · rw [ets_recursive_forecast, if_neg hne]
    norm_num [recentPctOf, lastN, adjustedPreds, prevSeq, adjustStep, antiAllowed]
  · rw [hrp]
    norm_num [adjustedPreds, adjustStep, antiAllowed, List.getLastD]
  · rw [hrp]
    norm_num [antiAllowed]

/- ========== consistency validator: C3 and C10 ========== -/

/-- C3: `consistency_explanation` is present exactly when at least one
contradiction rule fires — rule (a): recomputed direction up and risk
High (instability sentence); rule (b): volatility above 40 and direction
up (confidence warning).  When both fire the sentences are joined with
a single space, when one fires the field is exactly that sentence, and
when none fires the field is absent (`none`), in particular for
direction down with risk Low. -/
theorem validator_explanation (p : ValidatorIn) :
    ((validate_and_adjust p).consistency_explanation ≠ none ↔
      (ruleA p = true ∨ ruleB p = true)) ∧
    (ruleA p = true → ruleB p = true →
      (validate_and_adjust p).consistency_explanation =
        some (instabilitySentence ++ " " ++ volatilityWarningSentence)) ∧
    (ruleA p = true → ruleB p = false →
      (validate_and_adjust p).consistency_explanation = some instabilitySentence) ∧
    (ruleA p = false → ruleB p = true →
      (validate_and_adjust p).consistency_explanation = some volatilityWarningSentence) ∧
    (directionOf p = some "down" ∧ p.risk_label = some "Low" →
      (validate_and_adjust p).consistency_explanation = none) := by
  have hjoin : String.intercalate " " [instabilitySentence, volatilityWarningSentence] =
      instabilitySentence ++ " " ++ volatilityWarningSentence := rfl
  have hjoinA : String.intercalate " " [instabilitySentence] = instabilitySentence := rfl
  have hjoinB : String.intercalate " " [volatilityWarningSentence] =
      volatilityWarningSentence := rfl
  cases hA : ruleA p <;> cases hB : ruleB p <;>
    refine ⟨?_, ?_, ?_, ?_, ?_⟩ <;>
      simp_all [validate_and_adjust, ruleA, ruleB, String.intercalate]

/-- C3 witness: a payload firing both rules (forecast up from 100 to
110, risk High, volatility 50) gets the two sentences joined by one
space; a payload with direction down and risk Low gets no field. -/
theorem validator_explanation_witness :
    (validate_and_adjust ⟨some "High", some 50, [110], some 100⟩).consistency_explanation =
      some (instabilitySentence ++ " " ++ volatilityWarningSentence) ∧
    (validate_and_adjust ⟨some "Low", some 10, [90], some 100⟩).consistency_explanation =
      none :=
  ⟨(validator_explanation ⟨some "High", some 50, [110], some 100⟩).2.1
      (by norm_num [ruleA, directionOf, directionPct, String.reduceEq])
      (by norm_num [ruleB, volAbove40, directionOf, directionPct, String.reduceEq]),
   (validator_explanation ⟨some "Low", some 10, [90], some 100⟩).2.2.2.2
      ⟨by norm_num [directionOf, directionPct, String.reduceEq], rfl⟩⟩

/-- C10: with a non-empty predictions list and last actual exactly `0`,
the percent change is guarded to `0.0`, the direction is `flat`, the
`forecast_direction_pct` field is set to `0`, no contradiction rule can
fire, and `consistency_explanation` is absent. -/
theorem validator_zero_guard (p : ValidatorIn) (hp : p.predictions ≠ [])
    (h0 : p.last_actual = some 0) :
    directionPct p = some 0 ∧ directionOf p = some "flat" ∧
    (validate_and_adjust p).forecast_direction_pct = some 0 ∧
    (validate_and_adjust p).consistency_explanation = none := by
  have hd : directionPct p = some 0 := by
    unfold directionPct
    cases hpreds : p.predictions with
    | nil => exact absurd hpreds hp
    | cons a l =>
        rw [h0]
        simp
  have hflat : directionOf p = some "flat" := by
    simp [directionOf, hd]
  have hA : ruleA p = false := by
    simp [ruleA, hflat]
  have hB : ruleB p = false := by
    simp [ruleB, hflat]
  exact ⟨hd, hflat, by simp [validate_and_adjust, hd],
    by simp [validate_and_adjust, hA, hB]⟩

/-- C10 witness: predictions `[5]`, last actual `0`, risk High,
volatility 50 — still no explanation. -/
theorem validator_zero_guard_witness :
    directionPct ⟨some "High", some 50, [5], some 0⟩ = some 0 ∧
    directionOf ⟨some "High", some 50, [5], some 0⟩ = some "flat" ∧
    (validate_and_adjust ⟨some "High", some 50, [5], some 0⟩).forecast_direction_pct =
      some 0 ∧
    (validate_and_adjust ⟨some "High", some 50, [5], some 0⟩).consistency_explanation =
      none :=
  validator_zero_guard ⟨some "High", some 50, [5], some 0⟩ (by simp) rfl

/- ========== insights engine: C6 ========== -/

/-- C6: the recommendation decision table.  High risk always selects the
crisis playbook; Medium selects cautious monitoring below −10%,
volatility-aware growth above +10%, and the generic moderate playbook
otherwise (including a missing trend); Low selects the controlled
decline playbook below −10% and the growth-investment playbook
otherwise; and the −10% recommendation threshold is distinct from the
−15% trend-summary threshold (at `recent_short = −0.12` the
recommendation sees a significant decline while the trend summary
phrases modest movement). -/
theorem recommendation_table :
    (∀ rs : Option ℚ, recommendationOf (some "High") rs = .crisis) ∧
    (∀ v : ℚ, v < -(10 / 100) →
      recommendationOf (some "Medium") (some v) = .cautiousMonitoring) ∧
    (∀ v : ℚ, 10 / 100 < v →
      recommendationOf (some "Medium") (some v) = .volatileGrowth) ∧
    (∀ v : ℚ, -(10 / 100) ≤ v → v ≤ 10 / 100 →
      recommendationOf (some "Medium") (some v) = .moderate) ∧
    recommendationOf (some "Medium") none = .moderate ∧
    (∀ v : ℚ, v < -(10 / 100) →
      recommendationOf (some "Low") (some v) = .controlledDecline) ∧
    (∀ v : ℚ, -(10 / 100) ≤ v →
      recommendationOf (some "Low") (some v) = .growthInvestment) ∧
    recommendationOf (some "Low") none = .growthInvestment ∧
    recommendationOf (some "Medium") (some (-(12 / 100))) = .cautiousMonitoring ∧
    trendSummaryOf (-(12 / 100)) = .modest := by
  have hMH : (some "Medium" : Option String) ≠ some "High" := by simp
  have hLH : (some "Low" : Option String) ≠ some "High" := by simp
  have hLM : (some "Low" : Option String) ≠ some "Medium" := by simp
  refine ⟨?_, ?_, ?_, ?_, ?_, ?_, ?_, ?_, ?_, ?_⟩
  · intro rs
    unfold recommendationOf
    rw [if_pos rfl]
  · intro v hv
    have h0 : v ≠ 0 := by intro h; rw [h] at hv; norm_num at hv
    unfold recommendationOf
    rw [if_neg hMH, if_pos rfl, if_pos (by simp [truthyLt, h0, hv])]
  · intro v hv
    have h0 : v ≠ 0 := by intro h; rw [h] at hv; norm_num at hv
    have hnot : truthyLt (some v) (-(10 / 100)) = false := by
      simp only [truthyLt, Bool.and_eq_false_iff, decide_eq_false_iff_not, not_lt]
      right
      linarith
    unfold recommendationOf
    rw [if_neg hMH, if_pos rfl, if_neg (by simp [hnot]),
      if_pos (by simp [truthyGt, h0, hv])]
  · intro v hlo hhi
    have hnlt : truthyLt (some v) (-(10 / 100)) = false := by
      simp only [truthyLt, Bool.and_eq_false_iff, decide_eq_false_iff_not, not_lt]
      right
      linarith
    have hngt : truthyGt (some v) (10 / 100) = false := by
      simp only [truthyGt, Bool.and_eq_false_iff, decide_eq_false_iff_not, not_lt]
      right
      linarith
    unfold recommendationOf
    rw [if_neg hMH, if_pos rfl, if_neg (by simp [hnlt]), if_neg (by simp [hngt])]
  · unfold recommendationOf
    rw [if_neg hMH, if_pos rfl, if_neg (by simp [truthyLt]), if_neg (by simp [truthyGt])]
  · intro v hv
    have h0 : v ≠ 0 := by intro h; rw [h] at hv; norm_num at hv
    unfold recommendationOf
    rw [if_neg hLH, if_neg hLM, if_pos ⟨rfl, by simp [truthyLt, h0, hv]⟩]
  · intro v hlo
    have hnlt : truthyLt (some v) (-(10 / 100)) = false := by
      simp only [truthyLt, Bool.and_eq_false_iff, decide_eq_false_iff_not, not_lt]
      right
      linarith
    unfold recommendationOf
    rw [if_neg hLH, if_neg hLM, if_neg (by simp [hnlt])]
  · unfold recommendationOf
    rw [if_neg hLH, if_neg hLM, if_neg (by simp [truthyLt])]
  · unfold recommendationOf
    rw [if_neg hMH, if_pos rfl, if_pos (by norm_num [truthyLt])]
  · unfold trendSummaryOf
    rw [if_neg (by norm_num), if_neg (by norm_num)]

/-- C6 witness: one concrete payload per playbook row of the decision
table, plus the threshold-separation pair at −12%. -/
theorem recommendation_table_witness :
    recommendationOf (some "High") (some (-(50 / 100))) = .crisis ∧
    recommendationOf (some "Medium") (some (-(20 / 100))) = .cautiousMonitoring ∧
    recommendationOf (some "Medium") (some (20 / 100)) = .volatileGrowth ∧
    recommendationOf (some "Medium") (some (5 / 100)) = .moderate ∧
    recommendationOf (some "Low") (some (-(20 / 100))) = .controlledDecline ∧
    recommendationOf (some "Low") (some (5 / 100)) = .growthInvestment ∧
    recommendationOf (some "Medium") (some (-(12 / 100))) = .cautiousMonitoring ∧
    trendSummaryOf (-(12 / 100)) = .modest :=
  ⟨recommendation_table.1 _,
   recommendation_table.2.1 _ (by norm_num),
   recommendation_table.2.2.1 _ (by norm_num),
   recommendation_table.2.2.2.1 _ (by norm_num) (by norm_num),
   recommendation_table.2.2.2.2.2.1 _ (by norm_num),
   recommendation_table.2.2.2.2.2.2.1 _ (by norm_num),
   recommendation_table.2.2.2.2.2.2.2.2.1,
   recommendation_table.2.2.2.2.2.2.2.2.2⟩

/- ========== preprocessing: C9 ========== -/

lemma sort_toFinset_of_sorted (l : List ℤ) (h : l.Sorted (· < ·)) :
    l.toFinset.sort (· ≤ ·) = l :=
  (List.toFinset_sort (· ≤ ·) h.nodup).mpr (h.imp (fun hab => le_of_lt hab))

lemma prepare_rebuild (med : ℤ → ℕ) (rows : List (RawDate × ℚ))
    (hsorted : (rows.map (fun r => r.1.month)).Sorted (· < ·))
    (hmed : ∀ r ∈ rows, r.1.day = med r.1.month) :
    (rows.map (fun r => r.1.month)).map
        (fun m => ((⟨m, med m⟩ : RawDate),
          ((rows.filter (fun r => r.1.month = m)).map (fun r => r.2)).sum)) = rows := by
  induction rows with
  | nil => rfl
  | cons r rest ih =>
      simp only [List.map_cons] at hsorted ⊢
      obtain ⟨hhead, htail⟩ := List.sorted_cons.mp hsorted
      have hrestne : ∀ x ∈ rest, ¬(x.1.month = r.1.month) := by
        intro x hx hEq
        have := hhead x.1.month (List.mem_map_of_mem (fun q => q.1.month) hx)
        omega
      have hfilter : List.filter (fun q => decide (q.1.month = r.1.month)) (r :: rest) =
          [r] := by
        rw [List.filter_cons_of_pos (by simp)]
        rw [List.filter_eq_nil_iff.mpr (by simpa using hrestne)]
      have hheadrow : ((⟨r.1.month, med r.1.month⟩ : RawDate),
          ((List.filter (fun q => decide (q.1.month = r.1.month)) (r :: rest)).map
            (fun q => q.2)).sum) = r := by
        rw [hfilter]
        obtain ⟨⟨mo, da⟩, v⟩ := r
        have hd : da = med mo := hmed _ (List.mem_cons_self _ _)
        simp [hd]
      have htailrows : (rest.map (fun q => q.1.month)).map
          (fun m => ((⟨m, med m⟩ : RawDate),
            ((List.filter (fun q => decide (q.1.month = m)) (r :: rest)).map
              (fun q => q.2)).sum)) = rest := by
        rw [List.map_congr_left (fun m hm => by
          rw [List.filter_cons_of_neg]
          simp only [decide_eq_true_eq]
          obtain ⟨q, hq, hqm⟩ := List.mem_map.mp hm
          intro hEq
          exact hrestne q hq (hqm.trans hEq.symm))]
        exact ih htail (fun q hq => hmed q (List.mem_cons_of_mem r hq))
      rw [hheadrow, htailrows]

/-- C9: normalization is idempotent.  For rows that are already a
normalized monthly series — strictly ascending (hence unique) month
keys and each date equal to the month-end of its month — `prepare_series`
returns exactly the same rows: same periods, same order, same values.
Holds for every month-end day rule `med`. -/
theorem prepare_series_idempotent (med : ℤ → ℕ) (rows : List (RawDate × ℚ))
    (hsorted : (rows.map (fun r => r.1.month)).Sorted (· < ·))
    (hmed : ∀ r ∈ rows, r.1.day = med r.1.month) :
    prepare_series med rows = rows := by
  unfold prepare_series
  rw [sort_toFinset_of_sorted _ hsorted]
  exact prepare_rebuild med rows hsorted hmed

/-- C9 witness: a two-month normalized series under the month-end rule
`med = fun _ => 31`. -/
theorem prepare_series_idempotent_witness :
    prepare_series (fun _ => 31) [(⟨0, 31⟩, 5), (⟨1, 31⟩, 7)] =
      [(⟨0, 31⟩, 5), (⟨1, 31⟩, 7)] :=
  prepare_series_idempotent (fun _ => 31) [(⟨0, 31⟩, 5), (⟨1, 31⟩, 7)]
    (by norm_num [List.sorted_cons]) (by intro r hr; fin_cases hr <;> rfl)
